import Mathlib

/-!
Verification of the synchronous SNMPv2c client core (`src/sync.rs`,
`src/utils.rs`) of the `rust-snmp` crate, as a shallow embedding.

Machine integers are modelled as `Int`/`Nat` with explicit wrapping where the
source wraps (`Wrapping<i32>`); fallible operations return `Except`; network
effects (socket creation, send, receive, wall clock) are supplied as explicit
oracle values, so every operation of the session engine becomes a pure
function of its inputs and those oracles.

The PDU codec module (`pdu::build_get`, `pdu::build_set`, `handle_response`,
`SnmpPdu::from_bytes`) is not part of the provided sources; where a property
depends on it, it is modelled from the specification at PDU granularity (the
structured `RequestPdu` / `SnmpPdu` records of the spec's data model), with
datagram decoding kept abstract as a `decode` parameter.
-/

namespace Snmp

/-- Error taxonomy of the client (spec section 7, `SnmpError` in the source). -/
inductive SnmpError where
  | AsnParseError
  | AsnInvalidLen
  | AsnWrongType
  | AsnInvalidTag
  | AsnEof
  | UnsupportedValueType
  | SendError
  | ReceiveError
  | CommunityMismatch
  | RequestIdMismatch
  | SocketError
deriving DecidableEq, Repr

/-- SNMP message types (`SnmpMessageType` in the source). -/
inductive SnmpMessageType where
  | GetRequest
  | GetNextRequest
  | Response
  | SetRequest
  | GetBulkRequest
deriving DecidableEq, Repr

/-- SNMP values (`Value` in the source, at tag granularity; byte strings and
OIDs are lists of naturals). -/
inductive Value where
  | Boolean (b : Bool)
  | Null
  | Integer (i : Int)
  | OctetString (s : List Nat)
  | ObjectIdentifier (oid : List Nat)
  | IpAddress (a b c d : Nat)
  | Counter32 (n : Nat)
  | Unsigned32 (n : Nat)
  | Timeticks (n : Nat)
  | Opaque (s : List Nat)
  | Counter64 (n : Nat)
  | NoSuchObject
  | NoSuchInstance
  | EndOfMibView
deriving DecidableEq, Repr

/-- Signed 32-bit wrap: normalises an integer into `[-2^31, 2^31)`, the
semantics of `Wrapping<i32>` arithmetic. -/
def wrap32 (n : Int) : Int :=
  (n + 2147483648) % 4294967296 - 2147483648

/-! ## `src/utils.rs`: `oid_str_to_vec32`

Strings are modelled as lists of characters.  `splitOnDot` is Rust's
`str::split('.')`, `parse_u32` is `str::parse::<u32>()` (optional leading
`+`, decimal digits, overflow checked against `2^32`), `collect_u32` is
`collect::<Result<Vec<u32>, _>>()` (first error wins). -/

/-- Rust `str::split('.')` on a character list: always returns at least one
(possibly empty) component. -/
def splitOnDot : List Char → List (List Char)
  | [] => [[]]
  | c :: rest =>
    if c = '.' then
      [] :: splitOnDot rest
    else
      match splitOnDot rest with
      | [] => [[c]]
      | p :: ps => (c :: p) :: ps

/-- Digit-accumulating core of `str::parse::<u32>()`: rejects non-digits and
values not below `2^32`, with Rust's error display strings. -/
def parse_u32_digits : Nat → List Char → Except String Nat
  | acc, [] => .ok acc
  | acc, c :: rest =>
    if c.isDigit then
      let acc2 := acc * 10 + (c.toNat - 48)
      if acc2 < 4294967296 then
        parse_u32_digits acc2 rest
      else
        .error "number too large to fit in target type"
    else
      .error "invalid digit found in string"

/-- Rust `str::parse::<u32>()` followed by `err.to_string()`: empty input is
rejected, one leading `+` is allowed, then one or more decimal digits. -/
def parse_u32 (s : List Char) : Except String Nat :=
  match s with
  | [] => .error "cannot parse integer from empty string"
  | c :: rest =>
    let digits := if c = '+' then rest else c :: rest
    match digits with
    | [] => .error "invalid digit found in string"
    | _ => parse_u32_digits 0 digits

/-- Rust `collect::<Result<Vec<u32>, String>>()` over the parsed components:
the first parse failure is returned. -/
def collect_u32 : List (List Char) → Except String (List Nat)
  | [] => .ok []
  | s :: rest =>
    match parse_u32 s with
    | .error e => .error e
    | .ok n =>
      match collect_u32 rest with
      | .error e => .error e
      | .ok v => .ok (n :: v)

/-- The leading-dot skip of `oid_str_to_vec32`: `if oid.starts_with('.') {
&oid[1..] } else { oid }`. -/
def strip_dot : List Char → List Char
  | [] => []
  | c :: rest => if c = '.' then rest else c :: rest

/-- `utils::oid_str_to_vec32`: skip one leading dot, split on dots, parse each
component as a `u32`, and append a trailing `0` unless the last parsed element
is already `0`. -/
def oid_str_to_vec32 (oid : List Char) : Except String (List Nat) :=
  match collect_u32 (splitOnDot (strip_dot oid)) with
  | .ok vec1 =>
    if vec1.getLast? ≠ some 0 then
      .ok (vec1 ++ [0])
    else
      .ok vec1
  | .error e => .error e

/-! ## The session engine (`src/sync.rs`)

Sockets are modelled by their observable option state (address family bound,
read timeout, broadcast flag); durations by `Nat` (abstract time units).
Whether an OS-level socket call succeeds is an oracle bit of the environment
supplied to each operation. -/

/-- A resolved socket address (`std::net::SocketAddr`): address family, host
and port, at the granularity the session engine inspects it. -/
inductive SocketAddr where
  | V4 (ip : Nat) (port : Nat)
  | V6 (ip : Nat) (port : Nat)
deriving DecidableEq, Repr

/-- Observable state of a UDP socket as configured by `create_socket`. -/
structure Socket where
  bind_v4 : Bool
  read_timeout : Option Nat
  broadcast : Bool
deriving DecidableEq, Repr

/-- A request PDU as assembled by the `pdu` builders (spec data model
`RequestPdu`); for non-bulk requests the two integer slots are both zero. -/
structure RequestPdu where
  message_type : SnmpMessageType
  req_id : Int
  community : List Nat
  non_repeaters : Nat
  max_repetitions : Nat
  bindings : List (List Nat × Value)
deriving DecidableEq, Repr

/-- A decoded response PDU (`SnmpPdu` in the source, spec data model
`ResponsePdu`). -/
structure SnmpPdu where
  message_type : SnmpMessageType
  req_id : Int
  community : List Nat
  error_status : Nat
  error_index : Nat
  bindings : List (List Nat × Value)
deriving DecidableEq, Repr

/-- A raw received datagram with its source IP rendered as a string
(`ResponseItemInt` in the source). -/
structure ResponseItemInt where
  address : String
  data : List Nat
deriving DecidableEq, Repr

/-- A decoded response paired with its source address string (`ResponseItem`
in the source). -/
structure ResponseItem where
  address : String
  data : SnmpPdu
deriving DecidableEq, Repr

/-- The synchronous session (`SyncSession` in the source): destination,
primary socket, community bytes, wrapping `i32` request-id counter, and the
reusable send buffer (at PDU granularity; `none` before the first build). -/
structure SyncSession where
  destination : SocketAddr
  socket : Socket
  community : List Nat
  req_id : Int
  send_pdu : Option RequestPdu
deriving DecidableEq, Repr

/-- The default community bytes, `b"public"`. -/
def default_community : List Nat := [112, 117, 98, 108, 105, 99]

/-- A `decode` oracle stands for `SnmpPdu::from_bytes` (codec module, not in
the provided sources): a function from raw datagram bytes to a decoded PDU or
an ASN error. -/
abbrev DecodeFn := List Nat → Except SnmpError SnmpPdu

deriving instance DecidableEq for Except

/-- Network environment of one unicast operation: whether the single
`send_to` succeeds, and the result of the single `recv_from` (source address
string and raw bytes on success). -/
structure NetEnv where
  send_ok : Bool
  recv_result : Except Unit ResponseItemInt
deriving DecidableEq, Repr

/-- `SyncSession::create_socket`: bind an ephemeral UDP socket of the
destination's family, then set the read timeout and the broadcast flag.
Fallibility of the OS calls is the caller's `socket_ok` oracle. -/
def create_socket (sock_addr : SocketAddr) (timeout : Option Nat)
    (broadcast : Bool) : Socket :=
  { bind_v4 := match sock_addr with | .V4 _ _ => true | .V6 _ _ => false
    read_timeout := timeout
    broadcast := broadcast }

/-- Outcome of `SyncSession::new`: a session, an `io::Error` returned to the
caller, or a panic (the `expect` on an empty resolution list). -/
inductive NewOutcome where
  | ok (s : SyncSession)
  | ioError
  | panicked (msg : String)
deriving DecidableEq, Repr

/-- `SyncSession::new`: resolve the destination (the resolution outcome is
the `resolve` oracle), take the first address via `.expect(..)` — panicking
on an empty list —, create the primary socket (`socket_ok` oracle), and
default the community to `b"public"` when none is given. -/
def SyncSession.new (resolve : Except Unit (List SocketAddr))
    (community : Option (List Nat)) (timeout : Option Nat)
    (starting_req_id : Int) (socket_ok : Bool) : NewOutcome :=
  match resolve with
  | .error _ => .ioError
  | .ok [] => .panicked "empty list of socket addrs"
  | .ok (dst :: _) =>
    if socket_ok then
      .ok { destination := dst
            socket := create_socket dst timeout false
            community := community.getD default_community
            req_id := starting_req_id
            send_pdu := none }
    else
      .ioError

/-- `SyncSession::recv_one`: a successful `recv_from` yields the datagram and
its source IP as a string; a failed one yields `ReceiveError`. -/
def recv_one (r : Except Unit ResponseItemInt) :
    Except SnmpError ResponseItemInt :=
  match r with
  | .ok item => .ok item
  | .error _ => .error SnmpError.ReceiveError

/-- `SyncSession::send_and_recv`: one `send_to` (failure is `SendError`)
followed by one `recv_one` on the primary socket. -/
def send_and_recv (env : NetEnv) : Except SnmpError ResponseItemInt :=
  if env.send_ok then
    recv_one env.recv_result
  else
    .error SnmpError.SendError

/-! ### The PDU builders, modelled from the spec

`pdu::build_get`, `pdu::build_getnext`, `pdu::build_getbulk` and
`pdu::build_set` live in the codec module, which is not among the provided
sources; they are modelled from the spec at `RequestPdu` granularity. -/

/-- Modelled from the spec: `pdu::build_get` writes a GetRequest envelope
with the given community and request-id and one `Null`-valued binding per
requested OID; the spec gives it no failure mode. -/
def build_get (community : List Nat) (req_id : Int)
    (names : List (List Nat)) : RequestPdu :=
  { message_type := SnmpMessageType.GetRequest
    req_id := req_id
    community := community
    non_repeaters := 0
    max_repetitions := 0
    bindings := names.map (fun o => (o, Value.Null)) }

/-- Modelled from the spec: `pdu::build_getnext` is `build_get` with a single
OID and the GetNextRequest tag; the spec gives it no failure mode. -/
def build_getnext (community : List Nat) (req_id : Int)
    (name : List Nat) : RequestPdu :=
  { message_type := SnmpMessageType.GetNextRequest
    req_id := req_id
    community := community
    non_repeaters := 0
    max_repetitions := 0
    bindings := [(name, Value.Null)] }

/-- Modelled from the spec: `pdu::build_getbulk` writes a GetBulkRequest
whose integer slots carry `non_repeaters` and `max_repetitions`; the spec
gives it no failure mode. -/
def build_getbulk (community : List Nat) (req_id : Int)
    (names : List (List Nat)) (non_repeaters max_repetitions : Nat) :
    RequestPdu :=
  { message_type := SnmpMessageType.GetBulkRequest
    req_id := req_id
    community := community
    non_repeaters := non_repeaters
    max_repetitions := max_repetitions
    bindings := names.map (fun o => (o, Value.Null)) }

/-- The response-only pseudo-types rejected by `build_set` (spec section 4.2);
every other `Value` case is on the builder's supported list. -/
def unsupported_set_value : Value → Bool
  | Value.NoSuchObject => true
  | Value.NoSuchInstance => true
  | Value.EndOfMibView => true
  | _ => false

/-- Modelled from the spec: `pdu::build_set` writes a SetRequest with the
given bindings, rejecting with `UnsupportedValueType` if any value is one of
the response-only pseudo-types. -/
def build_set (community : List Nat) (req_id : Int)
    (values : List (List Nat × Value)) : Except SnmpError RequestPdu :=
  if values.any (fun v => unsupported_set_value v.2) then
    .error SnmpError.UnsupportedValueType
  else
    .ok { message_type := SnmpMessageType.SetRequest
          req_id := req_id
          community := community
          non_repeaters := 0
          max_repetitions := 0
          bindings := values }

/-- Modelled from the spec: crate-level `handle_response` decodes the
datagram with `SnmpPdu::from_bytes` (the `decode` oracle) and verifies, in
order, `message_type == Response` (else `AsnWrongType`), `req_id` (else
`RequestIdMismatch`) and `community` (else `CommunityMismatch`). -/
def handle_response (decode : DecodeFn) (req_id : Int)
    (community : List Nat) (data : List Nat) : Except SnmpError SnmpPdu :=
  match decode data with
  | .error e => .error e
  | .ok resp =>
    if resp.message_type ≠ SnmpMessageType.Response then
      .error SnmpError.AsnWrongType
    else if resp.req_id ≠ req_id then
      .error SnmpError.RequestIdMismatch
    else if resp.community ≠ community then
      .error SnmpError.CommunityMismatch
    else
      .ok resp

/-! ### The five request operations -/

/-- Outcome of one unicast operation: the returned result, the session state
after the call, the request-id captured at call entry (the one handed to the
PDU builder), and whether `send_to` / `recv_from` were ever invoked. -/
structure OpOutcome where
  result : Except SnmpError SnmpPdu
  session : SyncSession
  issued : Int
  sent : Bool
  recvd : Bool
deriving DecidableEq, Repr

/-- `SyncSession::get`: capture the request id, bump the counter (wrapping),
build a GetRequest into the send buffer, send and receive once, then validate
through `handle_response`. -/
def SyncSession.get (s : SyncSession) (decode : DecodeFn) (env : NetEnv)
    (names : List (List Nat)) : OpOutcome :=
  let req_id := s.req_id
  let s1 := { s with req_id := wrap32 (s.req_id + 1) }
  let s2 := { s1 with send_pdu := some (build_get s1.community req_id names) }
  match send_and_recv env with
  | .error e =>
    { result := .error e, session := s2, issued := req_id, sent := true
      recvd := env.send_ok }
  | .ok response =>
    { result := handle_response decode req_id s2.community response.data
      session := s2
      issued := req_id
      sent := true
      recvd := true }

/-- `SyncSession::getnext`: same shape as `get` with a single OID. -/
def SyncSession.getnext (s : SyncSession) (decode : DecodeFn) (env : NetEnv)
    (name : List Nat) : OpOutcome :=
  let req_id := s.req_id
  let s1 := { s with req_id := wrap32 (s.req_id + 1) }
  let s2 := { s1 with send_pdu := some (build_getnext s1.community req_id name) }
  match send_and_recv env with
  | .error e =>
    { result := .error e, session := s2, issued := req_id, sent := true
      recvd := env.send_ok }
  | .ok response =>
    { result := handle_response decode req_id s2.community response.data
      session := s2
      issued := req_id
      sent := true
      recvd := true }

/-- `SyncSession::getbulk`: same shape as `get` with a GetBulkRequest. -/
def SyncSession.getbulk (s : SyncSession) (decode : DecodeFn) (env : NetEnv)
    (names : List (List Nat)) (non_repeaters max_repetitions : Nat) :
    OpOutcome :=
  let req_id := s.req_id
  let s1 := { s with req_id := wrap32 (s.req_id + 1) }
  let s2 :=
    { s1 with
      send_pdu :=
        some (build_getbulk s1.community req_id names non_repeaters
          max_repetitions) }
  match send_and_recv env with
  | .error e =>
    { result := .error e, session := s2, issued := req_id, sent := true
      recvd := env.send_ok }
  | .ok response =>
    { result := handle_response decode req_id s2.community response.data
      session := s2
      issued := req_id
      sent := true
      recvd := true }

/-- `SyncSession::set`: capture the request id, bump the counter, run
`build_set` (whose error returns before any send), send and receive once,
decode, then check message type, request id, and community in that order. -/
def SyncSession.set (s : SyncSession) (decode : DecodeFn) (env : NetEnv)
    (values : List (List Nat × Value)) : OpOutcome :=
  let req_id := s.req_id
  let s1 := { s with req_id := wrap32 (s.req_id + 1) }
  match build_set s1.community req_id values with
  | .error e =>
    { result := .error e, session := s1, issued := req_id, sent := false
      recvd := false }
  | .ok buf =>
    let s2 := { s1 with send_pdu := some buf }
    match send_and_recv env with
    | .error e =>
      { result := .error e, session := s2, issued := req_id, sent := true
        recvd := env.send_ok }
    | .ok response =>
      match decode response.data with
      | .error e =>
        { result := .error e, session := s2, issued := req_id, sent := true
          recvd := true }
      | .ok resp =>
        { result :=
            if resp.message_type ≠ SnmpMessageType.Response then
              .error SnmpError.AsnWrongType
            else if resp.req_id ≠ req_id then
              .error SnmpError.RequestIdMismatch
            else if resp.community ≠ s2.community then
              .error SnmpError.CommunityMismatch
            else
              .ok resp
          session := s2
          issued := req_id
          sent := true
          recvd := true }

/-! ### The broadcast collector -/

/-- One iteration's observables in the broadcast receive loop: the result of
`recv_one` on the fresh socket and the wall-clock time elapsed since the send
as sampled at that iteration's check. -/
structure RecvEvent where
  result : Except Unit ResponseItemInt
  elapsed : Nat
deriving DecidableEq, Repr

/-- Environment of one `get_all_responses` call: whether creating the fresh
socket succeeds, whether the single send succeeds, and the trace of receive
events the fresh socket delivers. -/
structure BcastEnv where
  socket_ok : Bool
  send_ok : Bool
  recvs : List RecvEvent
deriving DecidableEq, Repr

/-- The receive loop of `get_all_responses`: break on a receive error or once
the sampled elapsed time reaches the timeout, otherwise append the datagram
and continue. -/
def recv_loop (timeout : Nat) : List RecvEvent → List ResponseItemInt
  | [] => []
  | e :: rest =>
    match recv_one e.result with
    | .error _ => []
    | .ok item =>
      if e.elapsed ≥ timeout then
        []
      else
        item :: recv_loop timeout rest

/-- The per-datagram parsing step of `get_all_responses`: keep a datagram as
a `ResponseItem` when `handle_response` accepts it, drop it otherwise. -/
def response_of (decode : DecodeFn) (req_id : Int) (community : List Nat)
    (item : ResponseItemInt) : Option ResponseItem :=
  match handle_response decode req_id community item.data with
  | .ok pdu => some { address := item.address, data := pdu }
  | .error _ => none

/-- Outcome of `get_all_responses`: the aggregate result, the session after
the call, the request-id captured at entry, and the fresh socket that was
created (`none` when creation failed). -/
structure BcastOutcome where
  result : Except SnmpError (List ResponseItem)
  session : SyncSession
  issued : Int
  fresh : Option Socket
deriving DecidableEq, Repr

/-- `SyncSession::get_all_responses`: capture and bump the request id, create
a fresh broadcast socket whose read timeout is the window (failure is
`SocketError`), build a GetRequest, send once (failure is `SendError`), run
the receive loop, and keep the datagrams `handle_response` accepts. -/
def SyncSession.get_all_responses (s : SyncSession) (decode : DecodeFn)
    (env : BcastEnv) (names : List (List Nat)) (timeout : Nat) :
    BcastOutcome :=
  let req_id := s.req_id
  let s1 := { s with req_id := wrap32 (s.req_id + 1) }
  if env.socket_ok then
    let socket := create_socket s1.destination (some timeout) true
    let s2 := { s1 with send_pdu := some (build_get s1.community req_id names) }
    if env.send_ok then
      let vec1 := recv_loop timeout env.recvs
      let vec2 := vec1.filterMap (response_of decode req_id s2.community)
      { result := .ok vec2, session := s2, issued := req_id
        fresh := some socket }
    else
      { result := .error SnmpError.SendError, session := s2, issued := req_id
        fresh := some socket }
  else
    { result := .error SnmpError.SocketError, session := s1, issued := req_id
      fresh := none }

/-! ### Sequences of operations (for the request-id counter invariant) -/

/-- One of the five request operations, with its arguments. -/
inductive SnmpOp where
  | getOp (names : List (List Nat))
  | getnextOp (name : List Nat)
  | getbulkOp (names : List (List Nat)) (non_repeaters max_repetitions : Nat)
  | setOp (values : List (List Nat × Value))
  | getAllOp (names : List (List Nat)) (timeout : Nat)

/-- The oracles one operation consumes. -/
structure OpEnv where
  net : NetEnv
  bcast : BcastEnv

/-- Run one operation on a session; return the request-id it issued and the
session state after the call. -/
def run_op (decode : DecodeFn) (s : SyncSession) (op : SnmpOp) (env : OpEnv) :
    Int × SyncSession :=
  match op with
  | .getOp names =>
    let o := s.get decode env.net names
    (o.issued, o.session)
  | .getnextOp name =>
    let o := s.getnext decode env.net name
    (o.issued, o.session)
  | .getbulkOp names nr mr =>
    let o := s.getbulk decode env.net names nr mr
    (o.issued, o.session)
  | .setOp values =>
    let o := s.set decode env.net values
    (o.issued, o.session)
  | .getAllOp names timeout =>
    let o := s.get_all_responses decode env.bcast names timeout
    (o.issued, o.session)

/-- Run a list of operations in order; return the issued request-ids in order
together with the final session state. -/
def run_ops (decode : DecodeFn) :
    SyncSession → List (SnmpOp × OpEnv) → List Int × SyncSession
  | s, [] => ([], s)
  | s, (op, env) :: rest =>
    let r := run_op decode s op env
    let rr := run_ops decode r.2 rest
    (r.1 :: rr.1, rr.2)

/-! ## Helper lemmas -/

theorem wrap32_lb (n : Int) : -2147483648 ≤ wrap32 n := by
  unfold wrap32
  omega

theorem wrap32_ub (n : Int) : wrap32 n < 2147483648 := by
  unfold wrap32
  omega

theorem wrap32_of_range (n : Int) (h1 : -2147483648 ≤ n)
    (h2 : n < 2147483648) : wrap32 n = n := by
  unfold wrap32
  omega

theorem wrap32_add_wrap32 (n k : Int) :
    wrap32 (wrap32 n + k) = wrap32 (n + k) := by
  unfold wrap32
  omega

theorem parse_u32_digits_lt (s : List Char) :
    ∀ acc, acc < 4294967296 → ∀ n, parse_u32_digits acc s = .ok n →
      n < 4294967296 := by
  induction s with
  | nil =>
    intro acc hacc n h
    simp only [parse_u32_digits] at h
    cases h
    exact hacc
  | cons c rest ih =>
    intro acc hacc n h
    simp only [parse_u32_digits] at h
    by_cases hd : c.isDigit
    · rw [if_pos hd] at h
      by_cases hlt : acc * 10 + (c.toNat - 48) < 4294967296
      · rw [if_pos hlt] at h
        exact ih _ hlt n h
      · rw [if_neg hlt] at h
        cases h
    · rw [if_neg hd] at h
      cases h

theorem parse_u32_lt (s : List Char) (n : Nat) (h : parse_u32 s = .ok n) :
    n < 4294967296 := by
  unfold parse_u32 at h
  match s with
  | [] => cases h
  | c :: rest =>
    simp only at h
    by_cases hc : c = '+'
    · rw [if_pos hc] at h
      match rest with
      | [] => cases h
      | d :: rest2 => exact parse_u32_digits_lt _ 0 (by norm_num) n h
    · rw [if_neg hc] at h
      exact parse_u32_digits_lt _ 0 (by norm_num) n h

theorem collect_u32_lt (l : List (List Char)) :
    ∀ v, collect_u32 l = .ok v → ∀ n ∈ v, n < 4294967296 := by
  induction l with
  | nil =>
    intro v h n hn
    simp only [collect_u32] at h
    cases h
    simp at hn
  | cons s rest ih =>
    intro v h n hn
    simp only [collect_u32] at h
    cases hp : parse_u32 s with
    | error e => rw [hp] at h; cases h
    | ok m =>
      rw [hp] at h
      cases hc : collect_u32 rest with
      | error e => rw [hc] at h; cases h
      | ok w =>
        rw [hc] at h
        cases h
        rcases List.mem_cons.mp hn with h1 | h2
        · exact h1 ▸ parse_u32_lt s m hp
        · exact ih w hc n h2

theorem strip_dot_of_head_ne (s : List Char) (h : s.head? ≠ some '.') :
    strip_dot s = s := by
  match s with
  | [] => rfl
  | c :: rest =>
    have hc : c ≠ '.' := by
      intro hc
      exact h (by simp [hc])
    simp [strip_dot, hc]

/-! ## Claims -/

/-- C10: when destination resolution succeeds with an empty address list,
`SyncSession::new` panics through `.expect("empty list of socket addrs")`
instead of returning an error value, whatever the other arguments are. -/
theorem c10_new_panics_on_empty_resolution (community : Option (List Nat))
    (timeout : Option Nat) (rid : Int) (socket_ok : Bool) :
    SyncSession.new (.ok []) community timeout rid socket_ok =
      NewOutcome.panicked "empty list of socket addrs" := rfl

/-- C9: whenever `oid_str_to_vec32` succeeds the result is non-empty and ends
in `0`; in particular `"0"` yields `[0]`, of length `1`, below the data
model's stated minimum OID length of `2`. -/
theorem c9_ok_oid_nonempty_ends_zero :
    (∀ s v, oid_str_to_vec32 s = .ok v → v ≠ [] ∧ v.getLast? = some 0) ∧
    oid_str_to_vec32 ['0'] = .ok [0] ∧ ([0] : List Nat).length = 1 ∧
    ([0] : List Nat).length < 2 := by
  refine ⟨?_, by rfl, by rfl, by norm_num⟩
  intro s v h
  cases hc : collect_u32 (splitOnDot (strip_dot s)) with
  | error e => simp [oid_str_to_vec32, hc] at h
  | ok vec1 =>
    by_cases hl : vec1.getLast? = some 0
    · simp [oid_str_to_vec32, hc, hl] at h
      subst h
      refine ⟨?_, hl⟩
      intro hnil
      rw [hnil] at hl
      simp at hl
    · simp [oid_str_to_vec32, hc, hl] at h
      subst h
      constructor
      · simp
      · simp [List.getLast?_concat]

/-- C9 witness: the invariant instantiated at the input `"0"`. -/
theorem c9_witness :
    oid_str_to_vec32 ['0'] = .ok [0] ∧ ([0] : List Nat) ≠ [] ∧
    ([0] : List Nat).getLast? = some 0 :=
  ⟨by rfl, c9_ok_oid_nonempty_ends_zero.1 ['0'] [0] (by rfl)⟩

/-- C6: `oid_str_to_vec32` skips at most one leading dot (prepending one dot
to a dotless string does not change the result, while a second dot produces
the empty-component parse error), parses the dot-separated components as
unsigned 32-bit integers, appends a trailing `0` exactly when the last parsed
element is not already `0`, and surfaces the first component's parse-error
string on failure. -/
theorem c6_oid_str_to_vec32_spec (s : List Char) :
    (s.head? ≠ some '.' →
      oid_str_to_vec32 ('.' :: s) = oid_str_to_vec32 s) ∧
    (oid_str_to_vec32 ('.' :: '.' :: s) =
      .error "cannot parse integer from empty string") ∧
    (∀ v, collect_u32 (splitOnDot (strip_dot s)) = .ok v →
      oid_str_to_vec32 s =
        .ok (if v.getLast? = some 0 then v else v ++ [0]) ∧
      ∀ n ∈ v, n < 4294967296) ∧
    (∀ e, collect_u32 (splitOnDot (strip_dot s)) = .error e →
      oid_str_to_vec32 s = .error e) := by
  refine ⟨?_, ?_, ?_, ?_⟩
  · intro h
    unfold oid_str_to_vec32
    rw [show strip_dot ('.' :: s) = s by simp [strip_dot],
      strip_dot_of_head_ne s h]
  · unfold oid_str_to_vec32
    rw [show strip_dot ('.' :: '.' :: s) = '.' :: s by simp [strip_dot]]
    rw [show splitOnDot ('.' :: s) = [] :: splitOnDot s by simp [splitOnDot]]
    rfl
  · intro v h
    refine ⟨?_, collect_u32_lt _ v h⟩
    by_cases hl : v.getLast? = some 0
    · simp [oid_str_to_vec32, h, hl]
    · simp [oid_str_to_vec32, h, hl]
  · intro e h
    simp [oid_str_to_vec32, h]

/-- C6 witness: the behaviour instantiated on `"1.3.6"` (leading-dot variant,
component parsing, and the appended trailing zero). -/
theorem c6_witness :
    (['1', '.', '3', '.', '6'].head? ≠ some '.') ∧
    collect_u32 (splitOnDot (strip_dot ['1', '.', '3', '.', '6'])) =
      .ok [1, 3, 6] ∧
    oid_str_to_vec32 ('.' :: ['1', '.', '3', '.', '6']) =
      oid_str_to_vec32 ['1', '.', '3', '.', '6'] ∧
    oid_str_to_vec32 ['1', '.', '3', '.', '6'] =
      .ok (if ([1, 3, 6] : List Nat).getLast? = some 0 then [1, 3, 6]
        else [1, 3, 6] ++ [0]) :=
  ⟨by decide, by rfl,
    (c6_oid_str_to_vec32_spec ['1', '.', '3', '.', '6']).1 (by decide),
    ((c6_oid_str_to_vec32_spec ['1', '.', '3', '.', '6']).2.2.1 [1, 3, 6]
      (by rfl)).1⟩

/-- C1: when a `set` call's datagram is received and decodes to a PDU, the
result is decided by three checks in this order: message type not `Response`
gives `AsnWrongType`; then a request-id differing from the one issued at call
entry gives `RequestIdMismatch`; then community bytes differing from the
session's give `CommunityMismatch`; otherwise the decoded PDU is returned. -/
theorem c1_set_validation_order (s : SyncSession) (decode : DecodeFn)
    (env : NetEnv) (values : List (List Nat × Value))
    (item : ResponseItemInt) (resp : SnmpPdu)
    (hbuild : values.any (fun v => unsupported_set_value v.2) = false)
    (hsend : env.send_ok = true)
    (hrecv : env.recv_result = .ok item)
    (hdec : decode item.data = .ok resp) :
    (s.set decode env values).result =
      (if resp.message_type ≠ SnmpMessageType.Response then
        .error SnmpError.AsnWrongType
      else if resp.req_id ≠ s.req_id then
        .error SnmpError.RequestIdMismatch
      else if resp.community ≠ s.community then
        .error SnmpError.CommunityMismatch
      else
        .ok resp) := by
  simp [SyncSession.set, build_set, send_and_recv, recv_one, hbuild, hsend,
    hrecv, hdec]

/-- C5: a `set` call whose values include a kind rejected by the builder
fails with `UnsupportedValueType` before any byte is sent: `send_to` is never
invoked and no receive is attempted. -/
theorem c5_set_rejects_unsupported (s : SyncSession) (decode : DecodeFn)
    (env : NetEnv) (values : List (List Nat × Value))
    (h : ∃ p ∈ values, unsupported_set_value p.2 = true) :
    (s.set decode env values).result =
      .error SnmpError.UnsupportedValueType ∧
    (s.set decode env values).sent = false ∧
    (s.set decode env values).recvd = false := by
  have hany : values.any (fun v => unsupported_set_value v.2) = true := by
    rcases h with ⟨p, hp, hv⟩
    exact List.any_eq_true.mpr ⟨p, hp, hv⟩
  simp [SyncSession.set, build_set, hany]

/-! ### Concrete objects shared by the witnesses -/

/-- A concrete IPv4 destination (127.0.0.1:161). -/
def addr0 : SocketAddr := SocketAddr.V4 2130706433 161

/-- A concrete primary socket. -/
def sock0 : Socket :=
  { bind_v4 := true, read_timeout := none, broadcast := false }

/-- A concrete session with the default community and counter at 5. -/
def sess0 : SyncSession :=
  { destination := addr0
    socket := sock0
    community := default_community
    req_id := 5
    send_pdu := none }

/-- A well-matched concrete response PDU for `sess0`. -/
def resp0 : SnmpPdu :=
  { message_type := SnmpMessageType.Response
    req_id := 5
    community := default_community
    error_status := 0
    error_index := 0
    bindings := [] }

/-- A concrete received datagram. -/
def item0 : ResponseItemInt := { address := "127.0.0.1", data := [48] }

/-- A concrete decoder that decodes everything to `resp0`. -/
def dec0 : DecodeFn := fun _ => .ok resp0

/-- A concrete unicast environment where send and receive both succeed. -/
def env0 : NetEnv := { send_ok := true, recv_result := .ok item0 }

/-- Concrete supported `set` bindings. -/
def vals0 : List (List Nat × Value) := [([1, 3, 6, 1, 0], Value.Integer 1)]

/-- Concrete `set` bindings containing a rejected pseudo-type. -/
def vals_bad : List (List Nat × Value) :=
  [([1, 3, 6, 1, 0], Value.NoSuchInstance)]

/-- C1 witness: the validation chain at a concrete matching response. -/
theorem c1_witness :
    (vals0.any (fun v => unsupported_set_value v.2) = false) ∧
    env0.send_ok = true ∧ env0.recv_result = .ok item0 ∧
    dec0 item0.data = .ok resp0 ∧
    (sess0.set dec0 env0 vals0).result =
      (if resp0.message_type ≠ SnmpMessageType.Response then
        .error SnmpError.AsnWrongType
      else if resp0.req_id ≠ sess0.req_id then
        .error SnmpError.RequestIdMismatch
      else if resp0.community ≠ sess0.community then
        .error SnmpError.CommunityMismatch
      else
        .ok resp0) :=
  ⟨rfl, rfl, rfl, rfl,
    c1_set_validation_order sess0 dec0 env0 vals0 item0 resp0 rfl rfl rfl
      rfl⟩

/-- C5 witness: a `set` with a `NoSuchInstance` value fails before sending. -/
theorem c5_witness :
    (∃ p ∈ vals_bad, unsupported_set_value p.2 = true) ∧
    (sess0.set dec0 env0 vals_bad).result =
      .error SnmpError.UnsupportedValueType ∧
    (sess0.set dec0 env0 vals_bad).sent = false ∧
    (sess0.set dec0 env0 vals_bad).recvd = false :=
  ⟨⟨([1, 3, 6, 1, 0], Value.NoSuchInstance), by simp [vals_bad], rfl⟩,
    c5_set_rejects_unsupported sess0 dec0 env0 vals_bad
      ⟨([1, 3, 6, 1, 0], Value.NoSuchInstance), by simp [vals_bad], rfl⟩⟩

/-! ### The broadcast receive loop, abstractly -/

/-- An iteration of the broadcast loop keeps going exactly when the receive
succeeded and the sampled elapsed time is still below the window. -/
def keeps (timeout : Nat) (e : RecvEvent) : Bool :=
  match e.result with
  | .ok _ => decide (e.elapsed < timeout)
  | .error _ => false

/-- The datagram carried by a successful receive event. -/
def event_item (e : RecvEvent) : Option ResponseItemInt :=
  match e.result with
  | .ok item => some item
  | .error _ => none

theorem keeps_eq_true_iff (timeout : Nat) (e : RecvEvent) :
    keeps timeout e = true ↔
      ∃ item, e.result = .ok item ∧ e.elapsed < timeout := by
  cases hr : e.result with
  | error u => simp [keeps, hr]
  | ok item => simp [keeps, hr]

theorem recv_loop_eq_takeWhile (timeout : Nat) (events : List RecvEvent) :
    recv_loop timeout events =
      (events.takeWhile (keeps timeout)).filterMap event_item := by
  induction events with
  | nil => rfl
  | cons e rest ih =>
    cases hr : e.result with
    | error u =>
      simp [recv_loop, recv_one, List.takeWhile_cons, keeps, hr]
    | ok item =>
      by_cases ht : e.elapsed < timeout
      · simp [recv_loop, recv_one, List.takeWhile_cons, keeps, event_item,
          hr, ht, Nat.not_le.mpr ht, ih]
      · simp [recv_loop, recv_one, List.takeWhile_cons, keeps, event_item,
          hr, ht, Nat.le_of_not_lt ht]

theorem response_of_address (decode : DecodeFn) (req_id : Int)
    (community : List Nat) (item : ResponseItemInt) (r : ResponseItem)
    (h : response_of decode req_id community item = some r) :
    r.address = item.address := by
  unfold response_of at h
  cases hh : handle_response decode req_id community item.data with
  | error e => rw [hh] at h; cases h
  | ok pdu => rw [hh] at h; cases h; rfl

theorem filterMap_response_address_sublist (decode : DecodeFn) (req_id : Int)
    (community : List Nat) (l : List ResponseItemInt) :
    ((l.filterMap (response_of decode req_id community)).map
      ResponseItem.address).Sublist (l.map ResponseItemInt.address) := by
  induction l with
  | nil => simp
  | cons x rest ih =>
    cases hx : response_of decode req_id community x with
    | none =>
      rw [List.filterMap_cons_none hx, List.map_cons]
      exact ih.cons x.address
    | some r =>
      rw [List.filterMap_cons_some hx, List.map_cons, List.map_cons,
        response_of_address decode req_id community x r hx]
      exact ih.cons₂ x.address

/-- C8: `get_all_responses` leaves the primary socket and every session field
other than the request-id counter and the send buffer unchanged, and the
fresh socket it allocates (when creation succeeds) has broadcast enabled and
its read timeout set to the window. -/
theorem c8_broadcast_socket_frame (s : SyncSession) (decode : DecodeFn)
    (env : BcastEnv) (names : List (List Nat)) (timeout : Nat) :
    (s.get_all_responses decode env names timeout).session.destination =
      s.destination ∧
    (s.get_all_responses decode env names timeout).session.community =
      s.community ∧
    (s.get_all_responses decode env names timeout).session.socket =
      s.socket ∧
    (s.get_all_responses decode env names timeout).session.req_id =
      wrap32 (s.req_id + 1) ∧
    (env.socket_ok = true →
      (s.get_all_responses decode env names timeout).fresh =
        some (create_socket s.destination (some timeout) true)) ∧
    (env.socket_ok = false →
      (s.get_all_responses decode env names timeout).fresh = none) ∧
    (create_socket s.destination (some timeout) true).broadcast = true ∧
    (create_socket s.destination (some timeout) true).read_timeout =
      some timeout := by
  cases hso : env.socket_ok <;> cases hse : env.send_ok <;>
    simp [SyncSession.get_all_responses, create_socket, hso, hse]

/-- A concrete broadcast environment with an empty receive trace. -/
def benv0 : BcastEnv := { socket_ok := true, send_ok := true, recvs := [] }

/-- A concrete erroring receive event. -/
def ev_err0 : RecvEvent := { result := .error (), elapsed := 1 }

/-- A concrete broadcast environment whose only receive event errors. -/
def benv1 : BcastEnv :=
  { socket_ok := true, send_ok := true, recvs := [ev_err0] }

/-- C8 witness: the frame condition at a concrete broadcast call. -/
theorem c8_witness :
    benv0.socket_ok = true ∧
    (sess0.get_all_responses dec0 benv0 [[1, 3]] 7).fresh =
      some (create_socket sess0.destination (some 7) true) ∧
    (sess0.get_all_responses dec0 benv0 [[1, 3]] 7).session.socket =
      sess0.socket :=
  ⟨rfl,
    (c8_broadcast_socket_frame sess0 dec0 benv0 [[1, 3]] 7).2.2.2.2.1 rfl,
    (c8_broadcast_socket_frame sess0 dec0 benv0 [[1, 3]] 7).2.2.1⟩

/-- C3: the aggregate result of `get_all_responses` is never `ReceiveError`:
socket-creation failure gives `SocketError`, send failure gives `SendError`,
and after a successful send the call returns `Ok` with exactly the received
datagrams that `handle_response` accepts, per-reply failures being dropped. -/
theorem c3_broadcast_aggregate (s : SyncSession) (decode : DecodeFn)
    (env : BcastEnv) (names : List (List Nat)) (timeout : Nat) :
    ((s.get_all_responses decode env names timeout).result ≠
      .error SnmpError.ReceiveError) ∧
    (env.socket_ok = false →
      (s.get_all_responses decode env names timeout).result =
        .error SnmpError.SocketError) ∧
    (env.socket_ok = true → env.send_ok = false →
      (s.get_all_responses decode env names timeout).result =
        .error SnmpError.SendError) ∧
    (env.socket_ok = true → env.send_ok = true →
      (s.get_all_responses decode env names timeout).result =
        .ok ((recv_loop timeout env.recvs).filterMap
          (response_of decode s.req_id s.community))) := by
  cases hso : env.socket_ok <;> cases hse : env.send_ok <;>
    simp [SyncSession.get_all_responses, hso, hse]

/-- C3 witness: a successful broadcast call returns `Ok` even though its only
receive event is an error, which is silently dropped. -/
theorem c3_witness :
    benv1.socket_ok = true ∧ benv1.send_ok = true ∧
    (sess0.get_all_responses dec0 benv1 [[1, 3]] 7).result =
      .ok ((recv_loop 7 benv1.recvs).filterMap
        (response_of dec0 sess0.req_id sess0.community)) :=
  ⟨rfl, rfl,
    (c3_broadcast_aggregate sess0 dec0 benv1 [[1, 3]] 7).2.2.2 rfl rfl⟩

/-- C4: the broadcast receive loop terminates exactly at the first receive
failure or at the first check where the sampled elapsed time reaches the
window; a datagram is kept only when received with time remaining; after a
successful send the call returns the accepted datagrams in reception order,
each paired with its source address string (a sublist of the received
addresses in order). -/
theorem c4_broadcast_recv_loop (timeout : Nat) :
    (∀ events, recv_loop timeout events =
      (events.takeWhile (keeps timeout)).filterMap event_item) ∧
    (∀ pre e post, (∀ x ∈ pre, keeps timeout x = true) →
      keeps timeout e = false →
      recv_loop timeout (pre ++ e :: post) = pre.filterMap event_item) ∧
    (∀ (s : SyncSession) (decode : DecodeFn) (env : BcastEnv) names,
      env.socket_ok = true → env.send_ok = true →
      (s.get_all_responses decode env names timeout).result =
        .ok ((recv_loop timeout env.recvs).filterMap
          (response_of decode s.req_id s.community))) ∧
    (∀ (s : SyncSession) (decode : DecodeFn) (env : BcastEnv) names items,
      env.socket_ok = true → env.send_ok = true →
      (s.get_all_responses decode env names timeout).result = .ok items →
      (items.map ResponseItem.address).Sublist
        ((recv_loop timeout env.recvs).map ResponseItemInt.address)) := by
  refine ⟨recv_loop_eq_takeWhile timeout, ?_, ?_, ?_⟩
  · intro pre
    induction pre with
    | nil =>
      intro e post _ hbad
      rcases hr : e.result with u | item
      · simp [recv_loop, recv_one, hr]
      · have ht : ¬ e.elapsed < timeout := by
          intro hlt
          rw [(keeps_eq_true_iff timeout e).mpr ⟨item, hr, hlt⟩] at hbad
          cases hbad
        simp [recv_loop, recv_one, hr, Nat.le_of_not_lt ht]
    | cons x pre' ih =>
      intro e post hall hbad
      have hx := (keeps_eq_true_iff timeout x).mp (hall x (List.mem_cons_self x pre'))
      rcases hx with ⟨item, hr, hlt⟩
      have hrest : ∀ y ∈ pre', keeps timeout y = true := by
        intro y hy
        exact hall y (List.mem_cons_of_mem x hy)
      have := ih e post hrest hbad
      simp [recv_loop, recv_one, hr, Nat.not_le.mpr hlt, this,
        List.filterMap_cons, event_item]
  · intro s decode env names hso hse
    simp [SyncSession.get_all_responses, hso, hse]
  · intro s decode env names items hso hse hok
    have hres :
        (s.get_all_responses decode env names timeout).result =
          .ok ((recv_loop timeout env.recvs).filterMap
            (response_of decode s.req_id s.community)) := by
      simp [SyncSession.get_all_responses, hso, hse]
    rw [hres] at hok
    cases hok
    exact filterMap_response_address_sublist decode s.req_id s.community _

/-- C4 witness: the loop at a trace with one timely datagram followed by a
receive error stops at the error and keeps exactly the first datagram. -/
theorem c4_witness :
    keeps 10 { result := .error (), elapsed := 4 } = false ∧
    (∀ x ∈ [({ result := .ok item0, elapsed := 3 } : RecvEvent)],
      keeps 10 x = true) ∧
    recv_loop 10
        ([({ result := .ok item0, elapsed := 3 } : RecvEvent)] ++
          { result := .error (), elapsed := 4 } :: []) =
      [({ result := .ok item0, elapsed := 3 } : RecvEvent)].filterMap
        event_item :=
  ⟨rfl, by intro x hx; rw [List.mem_singleton] at hx; subst hx; rfl,
    (c4_broadcast_recv_loop 10).2.1
      [({ result := .ok item0, elapsed := 3 } : RecvEvent)]
      { result := .error (), elapsed := 4 } []
      (by intro x hx; rw [List.mem_singleton] at hx; subst hx; rfl) rfl⟩

/-- C7: a session constructed without an explicit community has community
bytes exactly `b"public"`, every operation builds its outgoing request with
those bytes, and a response whose community differs from them is rejected
with `CommunityMismatch` (shown on the `set` and `get` paths). -/
theorem c7_default_community (addr : SocketAddr) (rest : List SocketAddr)
    (tmo : Option Nat) (rid : Int) (s : SyncSession)
    (h : SyncSession.new (.ok (addr :: rest)) none tmo rid true = .ok s) :
    s.community = default_community ∧
    (∀ (decode : DecodeFn) (env : NetEnv) names,
      (s.get decode env names).session.send_pdu =
        some (build_get default_community s.req_id names)) ∧
    (∀ (decode : DecodeFn) (env : NetEnv) name,
      (s.getnext decode env name).session.send_pdu =
        some (build_getnext default_community s.req_id name)) ∧
    (∀ (decode : DecodeFn) (env : NetEnv) names nr mr,
      (s.getbulk decode env names nr mr).session.send_pdu =
        some (build_getbulk default_community s.req_id names nr mr)) ∧
    (∀ (decode : DecodeFn) (env : BcastEnv) names timeout,
      env.socket_ok = true →
      (s.get_all_responses decode env names timeout).session.send_pdu =
        some (build_get default_community s.req_id names)) ∧
    (∀ (decode : DecodeFn) (env : NetEnv) values,
      values.any (fun v => unsupported_set_value v.2) = false →
      ∃ buf, (s.set decode env values).session.send_pdu = some buf ∧
        buf.community = default_community ∧ buf.req_id = s.req_id) ∧
    (∀ (decode : DecodeFn) (env : NetEnv) values item resp,
      values.any (fun v => unsupported_set_value v.2) = false →
      env.send_ok = true → env.recv_result = .ok item →
      decode item.data = .ok resp →
      resp.message_type = SnmpMessageType.Response →
      resp.req_id = s.req_id →
      resp.community ≠ default_community →
      (s.set decode env values).result =
        .error SnmpError.CommunityMismatch) ∧
    (∀ (decode : DecodeFn) (env : NetEnv) names item resp,
      env.send_ok = true → env.recv_result = .ok item →
      decode item.data = .ok resp →
      resp.message_type = SnmpMessageType.Response →
      resp.req_id = s.req_id →
      resp.community ≠ default_community →
      (s.get decode env names).result =
        .error SnmpError.CommunityMismatch) := by
  simp only [SyncSession.new, if_true] at h
  injection h with h
  subst h
  refine ⟨rfl, ?_, ?_, ?_, ?_, ?_, ?_, ?_⟩
  · intro decode env names
    cases hsr : send_and_recv env <;> simp [SyncSession.get, hsr]
  · intro decode env name
    cases hsr : send_and_recv env <;> simp [SyncSession.getnext, hsr]
  · intro decode env names nr mr
    cases hsr : send_and_recv env <;> simp [SyncSession.getbulk, hsr]
  · intro decode env names timeout hso
    cases hse : env.send_ok <;>
      simp [SyncSession.get_all_responses, hso, hse]
  · intro decode env values hb
    refine ⟨{ message_type := SnmpMessageType.SetRequest, req_id := rid,
              community := default_community, non_repeaters := 0,
              max_repetitions := 0, bindings := values }, ?_, rfl, rfl⟩
    cases hsr : send_and_recv env with
    | error e => simp [SyncSession.set, build_set, hb, hsr]
    | ok response =>
      cases hd : decode response.data <;>
        simp [SyncSession.set, build_set, hb, hsr, hd]
  · intro decode env values item resp hb hsend hrecv hdec hm hr hcom
    simp [SyncSession.set, build_set, send_and_recv, recv_one, hb, hsend,
      hrecv, hdec, hm, hr, hcom]
  · intro decode env names item resp hsend hrecv hdec hm hr hcom
    simp [SyncSession.get, send_and_recv, recv_one, handle_response, hsend,
      hrecv, hdec, hm, hr, hcom]

/-- C7 witness: a concrete construction without a community yields `sess0`,
whose community is the byte string `b"public"`. -/
theorem c7_witness :
    SyncSession.new (.ok [addr0]) none none 5 true = .ok sess0 ∧
    sess0.community = default_community :=
  ⟨by rfl, (c7_default_community addr0 [] none 5 sess0 (by rfl)).1⟩

/-! ### The request-id counter across operation sequences -/

theorem run_op_spec (decode : DecodeFn) (s : SyncSession) (op : SnmpOp)
    (env : OpEnv) :
    (run_op decode s op env).1 = s.req_id ∧
    (run_op decode s op env).2.req_id = wrap32 (s.req_id + 1) := by
  cases op with
  | getOp names =>
    cases hsr : send_and_recv env.net <;> simp [run_op, SyncSession.get, hsr]
  | getnextOp name =>
    cases hsr : send_and_recv env.net <;>
      simp [run_op, SyncSession.getnext, hsr]
  | getbulkOp names nr mr =>
    cases hsr : send_and_recv env.net <;>
      simp [run_op, SyncSession.getbulk, hsr]
  | setOp values =>
    by_cases hb : values.any (fun v => unsupported_set_value v.2) = true
    · simp [run_op, SyncSession.set, build_set, hb]
    · rw [Bool.not_eq_true] at hb
      cases hsr : send_and_recv env.net with
      | error e => simp [run_op, SyncSession.set, build_set, hb, hsr]
      | ok response =>
        cases hd : decode response.data <;>
          simp [run_op, SyncSession.set, build_set, hb, hsr, hd]
  | getAllOp names timeout =>
    cases hso : env.bcast.socket_ok <;> cases hse : env.bcast.send_ok <;>
      simp [run_op, SyncSession.get_all_responses, hso, hse]

theorem run_ops_spec (decode : DecodeFn) (ops : List (SnmpOp × OpEnv)) :
    ∀ s : SyncSession, -2147483648 ≤ s.req_id → s.req_id < 2147483648 →
      (run_ops decode s ops).1 =
        (List.range ops.length).map
          (fun i : Nat => wrap32 (s.req_id + (i : Int))) ∧
      (run_ops decode s ops).2.req_id = wrap32 (s.req_id + ops.length) := by
  induction ops with
  | nil =>
    intro s h1 h2
    constructor
    · simp [run_ops]
    · simp only [run_ops, List.length_nil, Nat.cast_zero, add_zero]
      exact (wrap32_of_range s.req_id h1 h2).symm
  | cons hd tl ih =>
    intro s h1 h2
    obtain ⟨op, env⟩ := hd
    have hop := run_op_spec decode s op env
    have h1' : -2147483648 ≤ (run_op decode s op env).2.req_id := by
      rw [hop.2]
      exact wrap32_lb _
    have h2' : (run_op decode s op env).2.req_id < 2147483648 := by
      rw [hop.2]
      exact wrap32_ub _
    obtain ⟨ihl, ihr⟩ := ih (run_op decode s op env).2 h1' h2'
    refine ⟨?_, ?_⟩
    · simp only [run_ops, List.length_cons, List.range_succ_eq_map,
        List.map_cons, List.map_map, List.cons.injEq]
      refine ⟨?_, ?_⟩
      · rw [hop.1, Nat.cast_zero, add_zero, wrap32_of_range s.req_id h1 h2]
      · rw [ihl, hop.2]
        congr 1
        funext i
        simp only [Function.comp_apply]
        rw [wrap32_add_wrap32]
        congr 1
        push_cast
        ring
    · simp only [run_ops, List.length_cons]
      rw [ihr, hop.2, wrap32_add_wrap32]
      congr 1
      push_cast
      ring

/-- C2: starting from an in-range counter value `r`, a sequence of N
operations (any mix of get, getnext, getbulk, set, get_all_responses) issues
the request-ids `wrap32 (r), wrap32 (r+1), …, wrap32 (r+N−1)` in order —
signed 32-bit wrapping arithmetic —, each operation leaves the counter at the
issued value plus one (wrapped) whether it succeeds or fails, and the built
GetRequest PDU carries the request-id captured at call entry. -/
theorem c2_request_id_monotone (decode : DecodeFn) (s : SyncSession)
    (ops : List (SnmpOp × OpEnv))
    (h1 : -2147483648 ≤ s.req_id) (h2 : s.req_id < 2147483648) :
    (run_ops decode s ops).1 =
      (List.range ops.length).map
        (fun i : Nat => wrap32 (s.req_id + (i : Int))) ∧
    (run_ops decode s ops).2.req_id = wrap32 (s.req_id + ops.length) ∧
    (∀ (env : OpEnv) (op : SnmpOp),
      (run_op decode s op env).1 = s.req_id ∧
      (run_op decode s op env).2.req_id = wrap32 (s.req_id + 1)) ∧
    (∀ (env : NetEnv) names, ∃ pdu,
      (s.get decode env names).session.send_pdu = some pdu ∧
      pdu.req_id = s.req_id ∧ (s.get decode env names).issued = s.req_id) := by
  refine ⟨(run_ops_spec decode ops s h1 h2).1,
    (run_ops_spec decode ops s h1 h2).2, ?_, ?_⟩
  · intro env op
    exact run_op_spec decode s op env
  · intro env names
    refine ⟨build_get s.community s.req_id names, ?_, rfl, ?_⟩ <;>
      cases hsr : send_and_recv env <;> simp [SyncSession.get, hsr]

/-- A concrete per-operation environment. -/
def openv0 : OpEnv := { net := env0, bcast := benv0 }

/-- A concrete mixed three-operation sequence. -/
def ops0 : List (SnmpOp × OpEnv) :=
  [(SnmpOp.getOp [[1, 3]], openv0), (SnmpOp.setOp vals0, openv0),
    (SnmpOp.getAllOp [[1, 3]] 7, openv0)]

/-- C2 witness: the issued-id sequence and final counter at a concrete
three-operation run starting from counter 5. -/
theorem c2_witness :
    (-2147483648 ≤ sess0.req_id) ∧ (sess0.req_id < 2147483648) ∧
    (run_ops dec0 sess0 ops0).1 =
      (List.range ops0.length).map
        (fun i : Nat => wrap32 (sess0.req_id + (i : Int))) ∧
    (run_ops dec0 sess0 ops0).2.req_id =
      wrap32 (sess0.req_id + ops0.length) :=
  ⟨by decide, by decide,
    (c2_request_id_monotone dec0 sess0 ops0 (by decide) (by decide)).1,
    (c2_request_id_monotone dec0 sess0 ops0 (by decide) (by decide)).2.1⟩

end Snmp
